import Mathlib

/-!
Verification of the task-tracking backend (FastAPI + SQLModel) against its
natural-language specification.  The Python sources under `backend/app/` are
shallowly embedded: JSON claim values become an inductive type, JWT decoding
becomes a pure function over a structured token, the pydantic validators
become `Except`-valued functions, the task table becomes a list of records,
and each route handler becomes a pure state-passing function that also
reports how many storage statements it issued.

Timestamps: JWT `exp`/`iat` claims are unix seconds (`Int`); task timestamps
(`datetime.utcnow()`) are microseconds since the epoch (`Nat`), so "second
precision" is division by 1000000.
-/

namespace TodoApi

/-- A JSON claim value as seen by the Python code after `jwt.decode`:
a string, an integer, or JSON `null` (Python `None`).  `pyStr` below is
Python's `str()` on these values. -/
inductive ClaimValue where
  | s (v : String)
  | n (v : Int)
  | null
deriving DecidableEq

/-- A decoded JWT payload: the claim dictionary.  Keys are unique in a JSON
object; lookup is first-match. -/
abbrev Payload := List (String × ClaimValue)

/-- Python's `str()` applied to a claim value (numbers print in decimal,
matching `str(42) = "42"`). -/
def pyStr : ClaimValue → String
  | .s v => v
  | .n v => toString v
  | .null => "None"

/-- Semantics of Python's `payload.get(key)`: `None` both when the key is
absent and when the stored JSON value is `null` (which decodes to Python
`None`).  Code that tests `payload.get(k) is not None` therefore treats the
two identically. -/
def claimGet (p : Payload) (k : String) : Option ClaimValue :=
  match p.lookup k with
  | some .null => none
  | o => o

/-- The two failure kinds of `backend/app/auth/jwt.py` (`TokenExpiredError`
and `InvalidTokenError`); human-readable messages are elided. -/
inductive JwtError where
  | tokenExpired
  | tokenInvalid
deriving DecidableEq

/-- The PyJWT exceptions that `decode_jwt_token` distinguishes
(`ExpiredSignatureError`, `InvalidSignatureError`, `DecodeError`, and the
remaining `InvalidTokenError` subclasses such as
`MissingRequiredClaimError`). -/
inductive PyJwtError where
  | expiredSignature
  | invalidSignature
  | decodeError
  | missingRequiredClaim
deriving DecidableEq

/-- A bearer token as relevant to `jwt.decode`: whether it parses as a JWS
structure at all, the key its signature was produced with (the signature is
valid exactly when this equals the configured secret), and its claim set. -/
structure Token where
  wellFormed : Bool
  sigKey : String
  claims : Payload
deriving DecidableEq

/-- Model of the library call `jwt.decode(token, secret, algorithms=[...],
options=\x7b"verify_signature": True, "verify_exp": True, "require": ["exp"]\x7d)`
as issued by `decode_jwt_token` (backend/app/auth/jwt.py, lines 82-93).
PyJWT verifies the JWS structure and the signature first (in `api_jws`) and
only then validates claims (in `api_jwt._validate_claims`): required claims,
then `exp <= now` raising `ExpiredSignatureError`.  So an expired token whose
signature does not match the secret fails with `InvalidSignatureError`, not
`ExpiredSignatureError`.  A non-numeric `exp` raises `DecodeError`; a missing
or null `exp` raises `MissingRequiredClaimError`. -/
def jwt_decode (secret : String) (now : Int) (t : Token) : Except PyJwtError Payload :=
  if !t.wellFormed then .error .decodeError
  else if t.sigKey != secret then .error .invalidSignature
  else
    match claimGet t.claims "exp" with
    | none => .error .missingRequiredClaim
    | some (.n e) => if e ≤ now then .error .expiredSignature else .ok t.claims
    | some _ => .error .decodeError

/-- `decode_jwt_token` (backend/app/auth/jwt.py, lines 68-105): calls
`jwt.decode` and maps `ExpiredSignatureError` to the expired failure kind and
every other PyJWT error (`InvalidSignatureError`, `DecodeError`, any other
`InvalidTokenError` subclass) to the invalid failure kind. -/
def decode_jwt_token (secret : String) (now : Int) (t : Token) : Except JwtError Payload :=
  match jwt_decode secret now t with
  | .ok p => .ok p
  | .error .expiredSignature => .error .tokenExpired
  | .error _ => .error .tokenInvalid

/-- The fixed priority list of claim names tried for the user id
(backend/app/auth/jwt.py, line 128). -/
def user_id_claims : List String := ["sub", "user_id", "userId", "id"]

/-- The loop body of `extract_user_id`: try each claim name in order; the
first whose `payload.get` is not `None` wins and is passed through `str()`. -/
def extract_user_id_from (p : Payload) : List String → Except JwtError String
  | [] => .error .tokenInvalid
  | c :: rest =>
    match claimGet p c with
    | some v => .ok (pyStr v)
    | none => extract_user_id_from p rest

/-- `extract_user_id` (backend/app/auth/jwt.py, lines 108-137). -/
def extract_user_id (p : Payload) : Except JwtError String :=
  extract_user_id_from p user_id_claims

/-- The structured payload returned by verification
(`JWTPayload` in backend/app/auth/jwt.py; the spec's AuthenticatedIdentity).
The `raw` dictionary field is elided. -/
structure JWTPayload where
  user_id : String
  email : String
  exp : Int
  iat : Option Int
deriving DecidableEq

/-- The `payload.get("email", "")` read in `parse_jwt_payload`: the default
applies when the key is absent; a non-string value is not normalized by the
source, but no modelled behavior depends on it, so it maps to `""`. -/
def emailOf (p : Payload) : String :=
  match p.lookup "email" with
  | some (.s e) => e
  | _ => ""

/-- `parse_jwt_payload` (backend/app/auth/jwt.py, lines 140-177): extract the
user id, the optional email, the required `exp`, the optional `iat`.  A
missing `exp` raises the invalid kind; a non-numeric `exp` raises a
`TypeError` inside `utcfromtimestamp` which the caller normalizes to the same
401, modelled directly as the invalid kind. -/
def parse_jwt_payload (p : Payload) : Except JwtError JWTPayload :=
  match extract_user_id p with
  | .error e => .error e
  | .ok uid =>
    match claimGet p "exp" with
    | some (.n e) =>
      .ok { user_id := uid, email := emailOf p, exp := e,
            iat := match claimGet p "iat" with | some (.n i) => some i | _ => none }
    | _ => .error .tokenInvalid

/-- `verify_jwt_token` (backend/app/auth/jwt.py, lines 180-227) without the
HTTP wrapping: decode then parse.  The `Bearer ` prefix strip operates on the
raw string and is not visible on the structured token. -/
def verify_jwt_token (secret : String) (now : Int) (t : Token) : Except JwtError JWTPayload :=
  match decode_jwt_token secret now t with
  | .error e => .error e
  | .ok p => parse_jwt_payload p

/-- Kinds of per-field validation failure produced by the pydantic schemas:
the `string_too_short` / `string_too_long` constraint errors and the
`ValueError` raised by the title validator on a trimmed-empty value. -/
inductive FieldErr where
  | stringTooShort
  | stringTooLong
  | valueEmpty
deriving DecidableEq

/-- The request-terminating failure kinds of the HTTP layer
(the route handlers plus FastAPI's own error mapping): 401 with the JWT
failure kind, 403 on ownership mismatch, 404 carrying the missing task id
(mirroring the detail string, which mentions only the id), and 422 carrying
the per-field validation errors. -/
inductive Failure where
  | unauthorized (e : JwtError)
  | forbidden
  | notFound (task_id : Nat)
  | validationFailed (errs : List (String × FieldErr))
deriving DecidableEq

/-- `verify_user_access` (backend/app/auth/dependencies.py, lines 98-133):
pure, exact, case-sensitive string comparison between the `user_id` path
segment and the authenticated subject; returns the identity unchanged on
match, 403 on mismatch.  It takes no storage handle at all. -/
def verify_user_access (user_id : String) (current_user : JWTPayload) : Except Failure JWTPayload :=
  if current_user.user_id != user_id then .error .forbidden
  else .ok current_user

/-- The shared authorization prefix of every task route: FastAPI resolves the
`verify_user_access` dependency (which itself depends on token verification
via `get_current_user`) before the endpoint body runs. -/
def authenticate (secret : String) (now : Int) (token : Token) (path_owner : String) :
    Except Failure JWTPayload :=
  match verify_jwt_token secret now token with
  | .error e => .error (.unauthorized e)
  | .ok ident => verify_user_access path_owner ident

/-- Python's `str.strip()` with no argument: drop leading whitespace
characters.  Written by structural recursion on the character list so that it
reduces inside the kernel (the library `String.trim` is defined through
well-founded recursion on substrings and does not). -/
def dropLeadingWs : List Char → List Char
  | [] => []
  | c :: r => if c.isWhitespace then dropLeadingWs r else c :: r

/-- Python's `str.strip()`: remove whitespace from both ends (for the ASCII
whitespace the claims exercise, Python and Lean agree on which characters are
whitespace). -/
def pyStrip (s : String) : String :=
  String.mk ((dropLeadingWs (dropLeadingWs s.data).reverse).reverse)

/-- The title validation pipeline shared verbatim by `TaskCreate` and
`TaskUpdate` (backend/app/models/task.py): pydantic first enforces the
`Field(min_length=1, max_length=200)` constraints on the raw value, then the
after-mode `validate_title` validator strips whitespace and rejects a
trimmed-empty result with a `ValueError`. -/
def validate_title (v : String) : Except FieldErr String :=
  if v.length < 1 then .error .stringTooShort
  else if 200 < v.length then .error .stringTooLong
  else if pyStrip v = "" then .error .valueEmpty
  else .ok (pyStrip v)

/-- The description validation pipeline shared verbatim by `TaskCreate` and
`TaskUpdate`: pydantic enforces `Field(max_length=1000)` on the raw value,
then the after-mode `validate_description` validator strips whitespace and
normalizes a trimmed-empty result to `None`. -/
def validate_description (v : String) : Except FieldErr (Option String) :=
  if 1000 < v.length then .error .stringTooLong
  else if pyStrip v = "" then .ok none
  else .ok (pyStrip v)

/-- `TaskUpdate.validate_title`: the field is `Optional`; `None` skips the
constraints and the validator. -/
def validate_title_update : Option String → Except FieldErr (Option String)
  | none => .ok none
  | some v => (validate_title v).map some

/-- Description validation for an optional field: `None` passes through. -/
def validate_description_opt : Option String → Except FieldErr (Option String)
  | none => .ok none
  | some v => validate_description v

/-- The validated `TaskCreate` schema (backend/app/models/task.py,
lines 89-139). -/
structure TaskCreate where
  title : String
  description : Option String
deriving DecidableEq

/-- Validation of a POST body against `TaskCreate`: pydantic validates each
field and collects the failures (field order: title, description) into a
single 422. -/
def validate_task_create (title : String) (description : Option String) :
    Except (List (String × FieldErr)) TaskCreate :=
  match validate_title title, validate_description_opt description with
  | .ok t, .ok d => .ok { title := t, description := d }
  | .error e, .ok _ => .error [("title", e)]
  | .ok _, .error e => .error [("description", e)]
  | .error e1, .error e2 => .error [("title", e1), ("description", e2)]

/-- A raw PUT body for `TaskUpdate`.  `model_dump(exclude_unset=True)`
distinguishes an absent field from an explicit JSON `null`, hence the double
option on `description` (`some none` = explicit `null`, clearing the value).
An explicit `null` title also passes the schema but then violates the NOT
NULL column on commit (a 500), a path no claim exercises, so the raw title is
either absent or a string. -/
structure TaskUpdateRaw where
  title : Option String
  description : Option (Option String)
deriving DecidableEq

/-- The validated update data, i.e. `model_dump(exclude_unset=True)` of a
`TaskUpdate` instance: each present field carries its validated value. -/
structure TaskUpdateData where
  title : Option String
  description : Option (Option String)
deriving DecidableEq

/-- Validation of a PUT body against `TaskUpdate` (backend/app/models/task.py,
lines 142-193), collecting per-field failures as for create. -/
def validate_task_update (r : TaskUpdateRaw) : Except (List (String × FieldErr)) TaskUpdateData :=
  match validate_title_update r.title,
        (match r.description with
         | none => Except.ok none
         | some none => Except.ok (some none)
         | some (some s) => (validate_description s).map some) with
  | .ok t, .ok d => .ok { title := t, description := d }
  | .error e, .ok _ => .error [("title", e)]
  | .ok _, .error e => .error [("description", e)]
  | .error e1, .error e2 => .error [("title", e1), ("description", e2)]

/-- The `tasks` table row (backend/app/models/task.py, `Task`): timestamps in
microseconds since the epoch. -/
structure Task where
  id : Nat
  user_id : String
  title : String
  description : Option String
  completed : Bool
  created_at : Nat
  updated_at : Nat
deriving DecidableEq

/-- The task table plus the autoincrement counter for the primary key. -/
structure Store where
  tasks : List Task
  nextId : Nat
deriving DecidableEq

/-- The point lookup `select(Task).where(Task.id == task_id, Task.user_id ==
user_id)` followed by `scalar_one_or_none()` (ids are unique, so at most one
row matches). -/
def findOwned (ts : List Task) (task_id : Nat) (owner : String) : Option Task :=
  ts.find? (fun t => t.id == task_id && t.user_id == owner)

/-- Committing a mutated row: the row with the task's id is replaced. -/
def replaceTask (ts : List Task) (t' : Task) : List Task :=
  ts.map (fun t => if t.id == t'.id then t' else t)

/-- Filter options of the list endpoint (`TaskStatus` in
backend/app/routes/tasks.py). -/
inductive TaskStatus where
  | all
  | pending
  | completed
deriving DecidableEq

/-- The optional `status` query filter applied by `list_tasks`
(backend/app/routes/tasks.py, lines 95-99): `pending` keeps incomplete rows,
`completed` keeps complete rows, `all` or absent keeps everything. -/
def statusPred (filt : Option TaskStatus) (t : Task) : Bool :=
  match filt with
  | some .pending => !t.completed
  | some .completed => t.completed
  | _ => true

/-- Insertion step for ordering by `created_at` descending. -/
def insertByCreatedDesc (t : Task) : List Task → List Task
  | [] => [t]
  | h :: r => if h.created_at ≤ t.created_at then t :: h :: r else h :: insertByCreatedDesc t r

/-- The `order_by(Task.created_at.desc())` clause: newest first. -/
def sortByCreatedDesc : List Task → List Task
  | [] => []
  | h :: r => insertByCreatedDesc h (sortByCreatedDesc r)

/-- Body of `list_tasks` after authorization (backend/app/routes/tasks.py,
lines 91-108): filter by owner and status, order newest first. -/
def list_core (store : Store) (owner : String) (filt : Option TaskStatus) : List Task :=
  sortByCreatedDesc (store.tasks.filter (fun t => t.user_id == owner && statusPred filt t))

/-- Body of `create_task` after authorization and body validation
(backend/app/routes/tasks.py, lines 162-177): insert a row owned by the path
owner with `completed=False` and the two `datetime.utcnow()` reads `tc`
(for `created_at`) and `tu` (for `updated_at`); the primary key is the next
autoincrement value. -/
def create_core (store : Store) (owner : String) (data : TaskCreate) (tc tu : Nat) :
    Task × Store :=
  let t : Task := { id := store.nextId, user_id := owner, title := data.title,
                    description := data.description, completed := false,
                    created_at := tc, updated_at := tu }
  (t, { tasks := store.tasks ++ [t], nextId := store.nextId + 1 })

/-- Body of `get_task` after authorization (backend/app/routes/tasks.py,
lines 230-241): point lookup by id AND owner; 404 when no row matches. -/
def get_core (store : Store) (owner : String) (task_id : Nat) : Except Failure Task :=
  match findOwned store.tasks task_id owner with
  | none => .error (.notFound task_id)
  | some t => .ok t

/-- The `setattr` loop of `update_task` over
`task_data.model_dump(exclude_unset=True)` plus the unconditional
`task.updated_at = datetime.utcnow()` (backend/app/routes/tasks.py,
lines 311-318). -/
def applyUpdate (t : Task) (u : TaskUpdateData) (now : Nat) : Task :=
  let t1 := match u.title with
    | none => t
    | some v => { t with title := v }
  let t2 := match u.description with
    | none => t1
    | some d => { t1 with description := d }
  { t2 with updated_at := now }

/-- Body of `update_task` after authorization and body validation
(backend/app/routes/tasks.py, lines 300-325): lookup by id AND owner, apply
the supplied fields, bump `updated_at`, commit the row. -/
def update_core (store : Store) (owner : String) (task_id : Nat) (u : TaskUpdateData)
    (now : Nat) : Except Failure (Task × Store) :=
  match findOwned store.tasks task_id owner with
  | none => .error (.notFound task_id)
  | some t =>
    let t' := applyUpdate t u now
    .ok (t', { store with tasks := replaceTask store.tasks t' })

/-- Body of `delete_task` after authorization (backend/app/routes/tasks.py,
lines 365-380): lookup by id AND owner, then remove the row. -/
def delete_core (store : Store) (owner : String) (task_id : Nat) : Except Failure Store :=
  match findOwned store.tasks task_id owner with
  | none => .error (.notFound task_id)
  | some t =>
    .ok { store with tasks := store.tasks.filter (fun x => !(x.id == t.id)) }

/-- Body of `toggle_task_completion` after authorization
(backend/app/routes/tasks.py, lines 436-458): lookup by id AND owner, flip
the boolean, bump `updated_at`, commit the row. -/
def toggle_core (store : Store) (owner : String) (task_id : Nat) (now : Nat) :
    Except Failure (Task × Store) :=
  match findOwned store.tasks task_id owner with
  | none => .error (.notFound task_id)
  | some t =>
    let t' := { t with completed := !t.completed, updated_at := now }
    .ok (t', { store with tasks := replaceTask store.tasks t' })

/-- `GET /\x7buser_id\x7d/tasks` end to end.  The triple is (response, store after
the request, number of storage statements issued).  FastAPI resolves the
authorization dependencies before the handler body runs, so a 401/403 issues
no storage statement and leaves the store untouched. -/
def list_tasks (secret : String) (now : Int) (token : Token) (path_owner : String)
    (filt : Option TaskStatus) (store : Store) :
    Except Failure (List Task) × Store × Nat :=
  match authenticate secret now token path_owner with
  | .error f => (.error f, store, 0)
  | .ok _ => (.ok (list_core store path_owner filt), store, 1)

/-- `POST /\x7buser_id\x7d/tasks` end to end: authorization, body validation
against `TaskCreate` (also before any storage access), then the insert. -/
def create_task (secret : String) (now : Int) (token : Token) (path_owner : String)
    (rawTitle : String) (rawDesc : Option String) (tc tu : Nat) (store : Store) :
    Except Failure Task × Store × Nat :=
  match authenticate secret now token path_owner with
  | .error f => (.error f, store, 0)
  | .ok _ =>
    match validate_task_create rawTitle rawDesc with
    | .error es => (.error (.validationFailed es), store, 0)
    | .ok data =>
      let r := create_core store path_owner data tc tu
      (.ok r.1, r.2, 1)

/-- `GET /\x7buser_id\x7d/tasks/\x7btask_id\x7d` end to end. -/
def get_task (secret : String) (now : Int) (token : Token) (path_owner : String)
    (task_id : Nat) (store : Store) :
    Except Failure Task × Store × Nat :=
  match authenticate secret now token path_owner with
  | .error f => (.error f, store, 0)
  | .ok _ =>
    match get_core store path_owner task_id with
    | .error f => (.error f, store, 1)
    | .ok t => (.ok t, store, 1)

/-- `PUT /\x7buser_id\x7d/tasks/\x7btask_id\x7d` end to end: authorization, body
validation against `TaskUpdate`, the point lookup (one statement), then the
committed row update (a second statement). -/
def update_task (secret : String) (now : Int) (token : Token) (path_owner : String)
    (task_id : Nat) (raw : TaskUpdateRaw) (nowT : Nat) (store : Store) :
    Except Failure Task × Store × Nat :=
  match authenticate secret now token path_owner with
  | .error f => (.error f, store, 0)
  | .ok _ =>
    match validate_task_update raw with
    | .error es => (.error (.validationFailed es), store, 0)
    | .ok u =>
      match update_core store path_owner task_id u nowT with
      | .error f => (.error f, store, 1)
      | .ok r => (.ok r.1, r.2, 2)

/-- `DELETE /\x7buser_id\x7d/tasks/\x7btask_id\x7d` end to end (204 carries no body,
hence `Unit`). -/
def delete_task (secret : String) (now : Int) (token : Token) (path_owner : String)
    (task_id : Nat) (store : Store) :
    Except Failure Unit × Store × Nat :=
  match authenticate secret now token path_owner with
  | .error f => (.error f, store, 0)
  | .ok _ =>
    match delete_core store path_owner task_id with
    | .error f => (.error f, store, 1)
    | .ok s' => (.ok (), s', 2)

/-- `PATCH /\x7buser_id\x7d/tasks/\x7btask_id\x7d/complete` end to end. -/
def toggle_task_completion (secret : String) (now : Int) (token : Token)
    (path_owner : String) (task_id : Nat) (nowT : Nat) (store : Store) :
    Except Failure Task × Store × Nat :=
  match authenticate secret now token path_owner with
  | .error f => (.error f, store, 0)
  | .ok _ =>
    match toggle_core store path_owner task_id nowT with
    | .error f => (.error f, store, 1)
    | .ok r => (.ok r.1, r.2, 2)

/-- A point lookup misses exactly when no row has both the requested id and
the requested owner. -/
theorem findOwned_eq_none (ts : List Task) (task_id : Nat) (owner : String)
    (h : ∀ t ∈ ts, t.id = task_id → t.user_id ≠ owner) :
    findOwned ts task_id owner = none := by
  apply List.find?_eq_none.mpr
  intro x hx
  simp only [Bool.and_eq_true, beq_iff_eq, not_and]
  intro h1 h2
  exact h x hx h1 h2

/-- Replacing the found row by a row that still satisfies the search
predicate makes the search return the replacement, provided rows the
replacement does not overwrite cannot satisfy the predicate. -/
theorem find?_replace {α : Type} (p r : α → Bool) (ts : List α) (t t' : α)
    (hfind : ts.find? p = some t)
    (hpt' : p t' = true)
    (himp : ∀ x, r x = false → p x = false) :
    (ts.map (fun x => if r x then t' else x)).find? p = some t' := by
  induction ts with
  | nil => simp [List.find?] at hfind
  | cons a as ih =>
    simp only [List.map_cons]
    by_cases hra : r a = true
    · rw [if_pos hra]
      exact List.find?_cons_of_pos _ hpt'
    · have hraf : r a = false := by simpa using hra
      have hpa : p a = false := himp a hraf
      rw [if_neg (by simp [hraf])]
      rw [List.find?_cons_of_neg _ (by simp [hpa])]
      rw [List.find?_cons_of_neg _ (by simp [hpa])] at hfind
      exact ih hfind

/-- Committing a mutated row that keeps its id and owner makes the point
lookup return the mutated row. -/
theorem findOwned_replaceTask (ts : List Task) (task_id : Nat) (owner : String) (t t' : Task)
    (hfind : findOwned ts task_id owner = some t)
    (hid : t'.id = t.id) (hus : t'.user_id = t.user_id) :
    findOwned (replaceTask ts t') task_id owner = some t' := by
  have hp := List.find?_some hfind
  simp only [Bool.and_eq_true, beq_iff_eq] at hp
  unfold findOwned replaceTask
  unfold findOwned at hfind
  apply find?_replace (fun (x : Task) => x.id == task_id && x.user_id == owner)
    (fun (x : Task) => x.id == t'.id) ts t t' hfind
  · simp [hid, hus, hp.1, hp.2]
  · intro x hx
    simp only [beq_eq_false_iff_ne, ne_eq, hid, hp.1] at hx
    simp [hx]

/-- A freshly appended row whose id no existing row can match is what the
point lookup returns. -/
theorem findOwned_append_fresh (ts : List Task) (t : Task) (task_id : Nat) (owner : String)
    (hall : ∀ x ∈ ts, (x.id == task_id && x.user_id == owner) = false)
    (ht : (t.id == task_id && t.user_id == owner) = true) :
    findOwned (ts ++ [t]) task_id owner = some t := by
  induction ts with
  | nil =>
    simp only [List.nil_append, findOwned]
    exact List.find?_cons_of_pos _ ht
  | cons a as ih =>
    have ha := hall a (by simp)
    simp only [List.cons_append, findOwned] at *
    rw [List.find?_cons_of_neg _ (by simp [ha])]
    exact ih (fun x hx => hall x (by simp [hx]))

/-- Claim C2: the access-control guard fails with Forbidden exactly when the
authenticated subject differs from the `user_id` path segment under exact,
case-sensitive string comparison, and returns the identity unchanged when
they are equal.  The guard is a pure comparison: `verify_user_access` takes
no store argument at all, so it cannot query storage. -/
theorem guard_forbidden_iff_subject_mismatch (path_owner : String) (ident : JWTPayload) :
    (verify_user_access path_owner ident = .ok ident ↔ ident.user_id = path_owner) ∧
    (verify_user_access path_owner ident = .error .forbidden ↔ ident.user_id ≠ path_owner) := by
  by_cases h : ident.user_id = path_owner <;> simp [verify_user_access, h]

/-- Claim C3: subject extraction tries the claim names "sub", "user_id",
"userId", "id" in that fixed order; the first whose value is present and
non-null wins and is converted by Python `str()` (so numeric values become
their decimal form); when all four are absent or null, extraction fails with
the invalid-token kind. -/
theorem subject_claim_priority_order (p : Payload) :
    (∀ v, claimGet p "sub" = some v → extract_user_id p = .ok (pyStr v)) ∧
    (claimGet p "sub" = none →
      ((∀ v, claimGet p "user_id" = some v → extract_user_id p = .ok (pyStr v)) ∧
       (claimGet p "user_id" = none →
         ((∀ v, claimGet p "userId" = some v → extract_user_id p = .ok (pyStr v)) ∧
          (claimGet p "userId" = none →
            ((∀ v, claimGet p "id" = some v → extract_user_id p = .ok (pyStr v)) ∧
             (claimGet p "id" = none → extract_user_id p = .error .tokenInvalid))))))) := by
  refine ⟨fun v hv => ?_,
    fun h1 => ⟨fun v hv => ?_,
      fun h2 => ⟨fun v hv => ?_,
        fun h3 => ⟨fun v hv => ?_, fun h4 => ?_⟩⟩⟩⟩ <;>
  simp [extract_user_id, user_id_claims, extract_user_id_from, *]

/-- Witness for C3: a token whose registered subject claim is null falls
through to the numeric `user_id` claim, which is converted to its string
form. -/
theorem subject_claim_priority_order_witness :
    extract_user_id [("sub", ClaimValue.null), ("user_id", ClaimValue.n 42)] =
      .ok "42" := by
  have h :=
    ((subject_claim_priority_order
        [("sub", ClaimValue.null), ("user_id", ClaimValue.n 42)]).2 rfl).1
      (ClaimValue.n 42) rfl
  exact h

/-- Claim C1: once the path owner matches the token subject (so the cores
run with that owner), fetching, updating, deleting, or toggling a task id
for which the store holds no row with BOTH that id and that owner fails with
the same NotFound value — whether a row with that id exists under a
different `user_id` or no row with that id exists at all.  The 404 payload
mentions only the requested id, so the two situations are indistinguishable
and existence is never leaked. -/
theorem cross_owner_access_is_notfound (store : Store) (owner : String) (task_id : Nat)
    (now : Nat)
    (h : ∀ t ∈ store.tasks, t.id = task_id → t.user_id ≠ owner) :
    get_core store owner task_id = .error (.notFound task_id) ∧
    (∀ u, update_core store owner task_id u now = .error (.notFound task_id)) ∧
    delete_core store owner task_id = .error (.notFound task_id) ∧
    toggle_core store owner task_id now = .error (.notFound task_id) := by
  have hf := findOwned_eq_none store.tasks task_id owner h
  refine ⟨?_, fun u => ?_, ?_, ?_⟩ <;>
    simp [get_core, update_core, delete_core, toggle_core, hf]

/-- Witness for C1: task 1 exists but belongs to userB; userA (as both path
owner and subject) gets the same NotFound as for any missing id. -/
theorem cross_owner_access_is_notfound_witness :
    get_core ⟨[⟨1, "userB", "Task 1", none, false, 0, 0⟩], 2⟩ "userA" 1 =
      .error (.notFound 1) ∧
    (∀ u, update_core ⟨[⟨1, "userB", "Task 1", none, false, 0, 0⟩], 2⟩ "userA" 1 u 5 =
      .error (.notFound 1)) ∧
    delete_core ⟨[⟨1, "userB", "Task 1", none, false, 0, 0⟩], 2⟩ "userA" 1 =
      .error (.notFound 1) ∧
    toggle_core ⟨[⟨1, "userB", "Task 1", none, false, 0, 0⟩], 2⟩ "userA" 1 5 =
      .error (.notFound 1) :=
  cross_owner_access_is_notfound ⟨[⟨1, "userB", "Task 1", none, false, 0, 0⟩], 2⟩
    "userA" 1 5 (by decide)

/-- Claim C4, amended: an expired token fails with the TokenExpired kind
provided its signature is valid for the configured secret (and it is
well-formed).  The unamended claim — "regardless of whether the signature is
valid" — is refuted by the counterexample below, because PyJWT verifies the
signature before it validates the expiry claim. -/
theorem expired_token_with_valid_signature (secret : String) (now : Int) (t : Token) (e : Int)
    (hw : t.wellFormed = true) (hs : t.sigKey = secret)
    (he : claimGet t.claims "exp" = some (.n e)) (hpast : e ≤ now) :
    decode_jwt_token secret now t = .error .tokenExpired := by
  simp [decode_jwt_token, jwt_decode, hw, hs, he, hpast]

/-- Witness for C4 (amended): a well-formed token signed with the configured
secret whose expiry (0) is before now (100) fails as expired. -/
theorem expired_token_with_valid_signature_witness :
    decode_jwt_token "s" 100 ⟨true, "s", [("exp", ClaimValue.n 0)]⟩ =
      .error .tokenExpired :=
  expired_token_with_valid_signature "s" 100 ⟨true, "s", [("exp", ClaimValue.n 0)]⟩ 0
    rfl rfl rfl (by decide)

/-- Counterexample to C4 as stated: a token whose expiry claim (0) is in the
past at now = 100 but whose signature was produced with a different key than
the configured secret fails with the TokenInvalid kind, not TokenExpired —
so expiry failure is NOT independent of signature validity. -/
theorem expired_bad_signature_is_invalid_not_expired :
    decode_jwt_token "configured-secret" 100
        ⟨true, "other-key", [("exp", ClaimValue.n 0), ("sub", ClaimValue.s "u1")]⟩ =
      .error .tokenInvalid ∧
    decode_jwt_token "configured-secret" 100
        ⟨true, "other-key", [("exp", ClaimValue.n 0), ("sub", ClaimValue.s "u1")]⟩ ≠
      .error .tokenExpired := by
  refine ⟨rfl, ?_⟩
  intro hc
  rw [show decode_jwt_token "configured-secret" 100
      ⟨true, "other-key", [("exp", ClaimValue.n 0), ("sub", ClaimValue.s "u1")]⟩ =
      .error .tokenInvalid from rfl] at hc
  exact JwtError.noConfusion (Except.error.inj hc)

/-- Claim C7: on all six per-user-scoped operations the authorization prefix
(token verification, then the ownership match against the `owner_id` path
segment) runs before the handler body, and when it fails the request
terminates with that failure, the store untouched, and zero storage
statements issued. -/
theorem auth_failure_issues_no_storage (secret : String) (now : Int) (token : Token)
    (path_owner : String) (f : Failure)
    (hfail : authenticate secret now token path_owner = .error f)
    (store : Store) (filt : Option TaskStatus) (task_id : Nat) (rawTitle : String)
    (rawDesc : Option String) (rawU : TaskUpdateRaw) (tc tu nowT : Nat) :
    list_tasks secret now token path_owner filt store = (.error f, store, 0) ∧
    create_task secret now token path_owner rawTitle rawDesc tc tu store =
      (.error f, store, 0) ∧
    get_task secret now token path_owner task_id store = (.error f, store, 0) ∧
    update_task secret now token path_owner task_id rawU nowT store = (.error f, store, 0) ∧
    delete_task secret now token path_owner task_id store = (.error f, store, 0) ∧
    toggle_task_completion secret now token path_owner task_id nowT store =
      (.error f, store, 0) := by
  refine ⟨?_, ?_, ?_, ?_, ?_, ?_⟩ <;>
    simp [list_tasks, create_task, get_task, update_task, delete_task,
      toggle_task_completion, hfail]

/-- Witness for C7: an expired token (so verification fails before the
ownership check) on a store that does hold a matching task: every endpoint
answers 401 with zero storage statements and an unchanged store. -/
theorem auth_failure_issues_no_storage_witness :
    list_tasks "s" 100 ⟨true, "s", [("sub", ClaimValue.s "u1"), ("exp", ClaimValue.n 0)]⟩
      "u1" none ⟨[⟨1, "u1", "T", none, false, 0, 0⟩], 2⟩ =
      (.error (.unauthorized .tokenExpired), ⟨[⟨1, "u1", "T", none, false, 0, 0⟩], 2⟩, 0) ∧
    create_task "s" 100 ⟨true, "s", [("sub", ClaimValue.s "u1"), ("exp", ClaimValue.n 0)]⟩
      "u1" "New" none 7 7 ⟨[⟨1, "u1", "T", none, false, 0, 0⟩], 2⟩ =
      (.error (.unauthorized .tokenExpired), ⟨[⟨1, "u1", "T", none, false, 0, 0⟩], 2⟩, 0) ∧
    get_task "s" 100 ⟨true, "s", [("sub", ClaimValue.s "u1"), ("exp", ClaimValue.n 0)]⟩
      "u1" 1 ⟨[⟨1, "u1", "T", none, false, 0, 0⟩], 2⟩ =
      (.error (.unauthorized .tokenExpired), ⟨[⟨1, "u1", "T", none, false, 0, 0⟩], 2⟩, 0) ∧
    update_task "s" 100 ⟨true, "s", [("sub", ClaimValue.s "u1"), ("exp", ClaimValue.n 0)]⟩
      "u1" 1 ⟨some "New", none⟩ 7 ⟨[⟨1, "u1", "T", none, false, 0, 0⟩], 2⟩ =
      (.error (.unauthorized .tokenExpired), ⟨[⟨1, "u1", "T", none, false, 0, 0⟩], 2⟩, 0) ∧
    delete_task "s" 100 ⟨true, "s", [("sub", ClaimValue.s "u1"), ("exp", ClaimValue.n 0)]⟩
      "u1" 1 ⟨[⟨1, "u1", "T", none, false, 0, 0⟩], 2⟩ =
      (.error (.unauthorized .tokenExpired), ⟨[⟨1, "u1", "T", none, false, 0, 0⟩], 2⟩, 0) ∧
    toggle_task_completion "s" 100
      ⟨true, "s", [("sub", ClaimValue.s "u1"), ("exp", ClaimValue.n 0)]⟩
      "u1" 1 7 ⟨[⟨1, "u1", "T", none, false, 0, 0⟩], 2⟩ =
      (.error (.unauthorized .tokenExpired), ⟨[⟨1, "u1", "T", none, false, 0, 0⟩], 2⟩, 0) :=
  auth_failure_issues_no_storage "s" 100
    ⟨true, "s", [("sub", ClaimValue.s "u1"), ("exp", ClaimValue.n 0)]⟩ "u1"
    (.unauthorized .tokenExpired) rfl
    ⟨[⟨1, "u1", "T", none, false, 0, 0⟩], 2⟩ none 1 "New" none ⟨some "New", none⟩ 7 7 7

/-- Evaluating the toggle handler when the lookup hits: the returned row has
the flipped flag and the fresh timestamp, and the store holds the committed
row. -/
theorem toggle_core_found (store : Store) (owner : String) (task_id : Nat) (now : Nat)
    (t : Task) (hfind : findOwned store.tasks task_id owner = some t) :
    toggle_core store owner task_id now =
      .ok ({ t with completed := !t.completed, updated_at := now },
           { store with tasks :=
               replaceTask store.tasks { t with completed := !t.completed, updated_at := now } }) := by
  simp [toggle_core, hfind]

/-- Claim C8: toggling a task's completion twice restores the original
`completed` value, while `updated_at` strictly increases at each of the two
toggles (each toggle stamps the current clock reading, and the wall clock
strictly advances across the two requests: `updated_at < now1 < now2`). -/
theorem toggle_twice_restores_completed (store : Store) (owner : String) (task_id : Nat)
    (now1 now2 : Nat) (t : Task)
    (hfind : findOwned store.tasks task_id owner = some t)
    (h1 : t.updated_at < now1) (h2 : now1 < now2) :
    ∃ t1 s1 t2 s2,
      toggle_core store owner task_id now1 = .ok (t1, s1) ∧
      toggle_core s1 owner task_id now2 = .ok (t2, s2) ∧
      t2.completed = t.completed ∧
      t.updated_at < t1.updated_at ∧ t1.updated_at < t2.updated_at := by
  have e1 := toggle_core_found store owner task_id now1 t hfind
  have hfind1 : findOwned
      (replaceTask store.tasks { t with completed := !t.completed, updated_at := now1 })
      task_id owner = some { t with completed := !t.completed, updated_at := now1 } :=
    findOwned_replaceTask store.tasks task_id owner t _ hfind rfl rfl
  have e2 := toggle_core_found
    { store with tasks :=
        replaceTask store.tasks { t with completed := !t.completed, updated_at := now1 } }
    owner task_id now2 _ hfind1
  refine ⟨_, _, _, _, e1, e2, ?_, ?_, ?_⟩
  · simp
  · simpa using h1
  · simpa using h2

/-- Witness for C8: one task, completed initially false, toggled at times 20
and 30 starting from `updated_at = 10`. -/
theorem toggle_twice_restores_completed_witness :
    ∃ t1 s1 t2 s2,
      toggle_core ⟨[⟨1, "u1", "T", none, false, 10, 10⟩], 2⟩ "u1" 1 20 = .ok (t1, s1) ∧
      toggle_core s1 "u1" 1 30 = .ok (t2, s2) ∧
      t2.completed = (⟨1, "u1", "T", none, false, 10, 10⟩ : Task).completed ∧
      (⟨1, "u1", "T", none, false, 10, 10⟩ : Task).updated_at < t1.updated_at ∧
      t1.updated_at < t2.updated_at :=
  toggle_twice_restores_completed ⟨[⟨1, "u1", "T", none, false, 10, 10⟩], 2⟩ "u1" 1 20 30
    ⟨1, "u1", "T", none, false, 10, 10⟩ rfl (by decide) (by decide)

/-- A POST body validated with no description field yields validated data
with no description. -/
theorem validate_task_create_none_description (rawTitle : String) (data : TaskCreate)
    (hv : validate_task_create rawTitle none = .ok data) :
    data.description = none := by
  cases hvt : validate_title rawTitle with
  | error e => simp [validate_task_create, validate_description_opt, hvt] at hv
  | ok tval =>
    simp [validate_task_create, validate_description_opt, hvt] at hv
    simp [← hv]

/-- Claim C9: creating a task from a validated body with a title and no
description, then fetching it by the server-assigned id under the same
owner, returns exactly the created task, with `completed = false`,
`description = none`, and `created_at` equal to `updated_at` at second
precision (the two `datetime.utcnow()` reads land in the same second;
timestamps are microseconds, so second precision is division by 1000000).
The store invariant is that every existing id is below the autoincrement
counter, so the new id is fresh. -/
theorem create_then_get_roundtrip (store : Store) (owner rawTitle : String)
    (data : TaskCreate) (tc tu : Nat)
    (hwf : ∀ x ∈ store.tasks, x.id < store.nextId)
    (hv : validate_task_create rawTitle none = .ok data)
    (hsec : tc / 1000000 = tu / 1000000) :
    ∃ t s', create_core store owner data tc tu = (t, s') ∧
      get_core s' owner t.id = .ok t ∧
      t.completed = false ∧ t.description = none ∧
      t.created_at / 1000000 = t.updated_at / 1000000 := by
  refine ⟨_, _, rfl, ?_, rfl, validate_task_create_none_description rawTitle data hv, hsec⟩
  have hfound : findOwned
      (store.tasks ++ [{ id := store.nextId, user_id := owner, title := data.title,
                         description := data.description, completed := false,
                         created_at := tc, updated_at := tu }])
      store.nextId owner =
      some { id := store.nextId, user_id := owner, title := data.title,
             description := data.description, completed := false,
             created_at := tc, updated_at := tu } := by
    apply findOwned_append_fresh
    · intro x hx
      have hne : x.id ≠ store.nextId := Nat.ne_of_lt (hwf x hx)
      simp [hne]
    · simp
  simp [create_core, get_core, hfound]

/-- Witness for C9: creating "Buy groceries" in an empty store at times that
share the second. -/
theorem create_then_get_roundtrip_witness :
    ∃ t s', create_core ⟨[], 1⟩ "user_123" ⟨"Buy groceries", none⟩ 1700000000123456
        1700000000654321 = (t, s') ∧
      get_core s' "user_123" t.id = .ok t ∧
      t.completed = false ∧ t.description = none ∧
      t.created_at / 1000000 = t.updated_at / 1000000 :=
  create_then_get_roundtrip ⟨[], 1⟩ "user_123" "Buy groceries" ⟨"Buy groceries", none⟩
    1700000000123456 1700000000654321 (by simp) rfl (by decide)

/-- The `setattr` loop writes only the fields admitted by the update schema
(title, description) and the handler bumps only `updated_at`; the row's id,
owner, completion flag, and creation time are untouched. -/
theorem applyUpdate_frame (t : Task) (u : TaskUpdateData) (now : Nat) :
    (applyUpdate t u now).id = t.id ∧ (applyUpdate t u now).user_id = t.user_id ∧
    (applyUpdate t u now).completed = t.completed ∧
    (applyUpdate t u now).created_at = t.created_at := by
  obtain ⟨ut, ud⟩ := u
  cases ut <;> cases ud <;> simp [applyUpdate]

/-- Claim C10: whatever fields a PUT request supplies, a successful update
leaves the task's id, user_id, completed, and created_at exactly as they
were before the update — the update schema admits only title and
description, so ownership, completion status, identity, and creation time
cannot change. -/
theorem update_preserves_frame_fields (store : Store) (owner : String) (task_id : Nat)
    (u : TaskUpdateData) (now : Nat) (t t' : Task) (s' : Store)
    (hfind : findOwned store.tasks task_id owner = some t)
    (hrun : update_core store owner task_id u now = .ok (t', s')) :
    t'.id = t.id ∧ t'.user_id = t.user_id ∧ t'.completed = t.completed ∧
    t'.created_at = t.created_at := by
  simp [update_core, hfind] at hrun
  obtain ⟨h1, h2⟩ := hrun
  rw [← h1]
  exact applyUpdate_frame t u now

/-- Witness for C10: updating both title and description (the description to
an explicit null) leaves id, owner, completed, created_at unchanged. -/
theorem update_preserves_frame_fields_witness :
    ∃ t' s', update_core ⟨[⟨1, "u1", "Old", some "d", true, 10, 10⟩], 2⟩ "u1" 1
        ⟨some "New", some none⟩ 20 = .ok (t', s') ∧
      t'.id = 1 ∧ t'.user_id = "u1" ∧ t'.completed = true ∧ t'.created_at = 10 := by
  refine ⟨⟨1, "u1", "New", none, true, 10, 20⟩,
    ⟨[⟨1, "u1", "New", none, true, 10, 20⟩], 2⟩, rfl, ?_⟩
  exact update_preserves_frame_fields ⟨[⟨1, "u1", "Old", some "d", true, 10, 10⟩], 2⟩
    "u1" 1 ⟨some "New", some none⟩ 20 ⟨1, "u1", "Old", some "d", true, 10, 10⟩
    ⟨1, "u1", "New", none, true, 10, 20⟩ ⟨[⟨1, "u1", "New", none, true, 10, 20⟩], 2⟩
    rfl rfl

/-- A title that strips to the empty string is rejected by the title
pipeline no matter which branch fires (too short raw, too long raw, or the
validator's emptiness check). -/
theorem validate_title_strip_empty (s : String) (h : pyStrip s = "") :
    ∃ e, validate_title s = .error e := by
  unfold validate_title
  split_ifs with h1 h2
  · exact ⟨.stringTooShort, rfl⟩
  · exact ⟨.stringTooLong, rfl⟩
  · exact ⟨.valueEmpty, rfl⟩

/-- Claim C5, amended: a title whose stripped value is empty is always
rejected with a 422 carrying a field entry for title (on create and update
alike), and a description whose stripped value is empty is accepted and
normalized to absent PROVIDED its raw length is at most 1000 characters.
The proviso is forced by the counterexample below: the `max_length=1000`
bound is checked on the raw value before the stripping validator runs, so a
trimmed-empty description longer than 1000 characters is rejected, not
normalized. -/
theorem trimmed_empty_title_rejected_description_normalized (title d : String) :
    (pyStrip title = "" →
      (∃ l, validate_task_create title none = .error l ∧ ∃ e, ("title", e) ∈ l) ∧
      (∃ l, validate_task_update ⟨some title, none⟩ = .error l ∧ ∃ e, ("title", e) ∈ l)) ∧
    (pyStrip d = "" → d.length ≤ 1000 →
      validate_task_create "x" (some d) = .ok ⟨"x", none⟩ ∧
      validate_task_update ⟨none, some (some d)⟩ = .ok ⟨none, some none⟩) := by
  constructor
  · intro ht
    obtain ⟨e, he⟩ := validate_title_strip_empty title ht
    constructor
    · exact ⟨[("title", e)],
        by simp [validate_task_create, validate_description_opt, he], e, by simp⟩
    · exact ⟨[("title", e)],
        by simp [validate_task_update, validate_title_update, he, Except.map], e, by simp⟩
  · intro hd hlen
    have hde : validate_description d = .ok none := by
      unfold validate_description
      rw [if_neg (by omega), if_pos hd]
    have hx : validate_title "x" = .ok "x" := rfl
    constructor
    · simp [validate_task_create, validate_description_opt, hx, hde]
    · simp [validate_task_update, validate_title_update, hde, Except.map]

/-- Witness for C5 (amended): title "   " is rejected with a title entry on
create; description "  " (stripped empty, raw length 2 ≤ 1000) normalizes to
absent on create. -/
theorem trimmed_empty_title_rejected_description_normalized_witness :
    (∃ l, validate_task_create "   " none = .error l ∧ ∃ e, ("title", e) ∈ l) ∧
    validate_task_create "x" (some "  ") = .ok ⟨"x", none⟩ :=
  ⟨((trimmed_empty_title_rejected_description_normalized "   " "  ").1 rfl).1,
   ((trimmed_empty_title_rejected_description_normalized "   " "  ").2 rfl (by decide)).1⟩

set_option maxRecDepth 100000 in
/-- Counterexample to C5 as stated: a description of 1001 spaces strips to
the empty string, yet create validation rejects it with the raw-length
error instead of accepting and normalizing it — so "a description whose
trimmed value is empty is accepted" does not hold universally. -/
theorem long_trimmed_empty_description_rejected :
    pyStrip (String.mk (List.replicate 1001 ' ')) = "" ∧
    validate_task_create "x" (some (String.mk (List.replicate 1001 ' '))) =
      .error [("description", FieldErr.stringTooLong)] := by
  constructor
  · rfl
  · rfl

/-- Claim C6, amended: the length bounds are enforced on the RAW values,
before trimming — pydantic checks the `Field` constraints before the
stripping validator runs.  A title is accepted exactly when its raw length
is between 1 and 200 characters AND it does not strip to empty (the accepted
value being the stripped title); a description is accepted exactly when its
raw length is at most 1000 characters.  The unamended claim (bounds on the
post-trim length) is refuted by the counterexample below: a title whose raw
length exceeds 200 only because of surrounding whitespace is rejected. -/
theorem length_bounds_are_pre_trim (s d : String) :
    ((∃ v, validate_title s = .ok v) ↔
      1 ≤ s.length ∧ s.length ≤ 200 ∧ pyStrip s ≠ "") ∧
    ((∃ v, validate_title_update (some s) = .ok v) ↔
      1 ≤ s.length ∧ s.length ≤ 200 ∧ pyStrip s ≠ "") ∧
    ((∃ v, validate_description d = .ok v) ↔ d.length ≤ 1000) := by
  have hT : (∃ v, validate_title s = .ok v) ↔
      1 ≤ s.length ∧ s.length ≤ 200 ∧ pyStrip s ≠ "" := by
    unfold validate_title
    split_ifs with h1 h2 h3
    · constructor
      · rintro ⟨v, hv⟩
        cases hv
      · rintro ⟨ha, -, -⟩
        omega
    · constructor
      · rintro ⟨v, hv⟩
        cases hv
      · rintro ⟨-, ha, -⟩
        omega
    · constructor
      · rintro ⟨v, hv⟩
        cases hv
      · rintro ⟨-, -, ha⟩
        exact absurd h3 ha
    · constructor
      · intro _
        exact ⟨by omega, by omega, h3⟩
      · intro _
        exact ⟨pyStrip s, rfl⟩
  have hTU : (∃ v, validate_title_update (some s) = .ok v) ↔
      (∃ v, validate_title s = .ok v) := by
    cases h : validate_title s <;> simp [validate_title_update, h, Except.map]
  have hD : (∃ v, validate_description d = .ok v) ↔ d.length ≤ 1000 := by
    unfold validate_description
    split_ifs with h1 h2
    · constructor
      · rintro ⟨v, hv⟩
        cases hv
      · intro hh
        omega
    · simp
      omega
    · simp
      omega
  exact ⟨hT, hTU.trans hT, hD⟩

set_option maxRecDepth 100000 in
/-- Counterexample to C6 as stated: the title "a" followed by 200 spaces has
stripped length 1 (within the claimed post-trim bounds of 1..200), yet the
code rejects it with the raw-length error, because `max_length=200` is
checked on the raw 201-character value before trimming. -/
theorem padded_title_within_trim_bounds_rejected :
    (pyStrip ("a" ++ String.mk (List.replicate 200 ' '))).length = 1 ∧
    validate_title ("a" ++ String.mk (List.replicate 200 ' ')) =
      .error .stringTooLong := by
  constructor
  · rfl
  · rfl

end TodoApi
